import Mathlib

/-!
Verification of the decoding/evaluation core of the UPS HAT (E) battery
monitor (two Python source variants, `ups_monitor.py` and `ups_monitor2.py`).

Shallow embedding conventions:
* Python ints are `ℕ` (decoded unsigned fields, raw bytes) or `ℤ` (the
  sign-corrected pack current, the health thresholds).
* Python float division `/` is modelled exactly over `ℚ`; `round(x, n)` is
  modelled as rounding `x·10^n` to the nearest integer (Python rounds the
  nearest binary double with ties to even; on the rationals arising here the
  two agree away from exact ties, which are noted where relevant).
* Fallible code (Python `IndexError` on a short byte block, `ValueError`
  from `max([])`, `ZeroDivisionError`) is modelled with `Except`.
* The classifications are modelled as inductives; the rich-text strings the
  Python functions wrap around them are presentation and are not modelled.
-/

/-- One decode failure: a register block shorter than the fields being
extracted need (Python raises `IndexError` on the out-of-range subscript). -/
inductive DecodeError where
  | truncatedBlock
deriving DecidableEq

/-- Health-evaluation failures: Python `max([])` raises `ValueError`
(empty voltage set), and `(max_v - min_v) / max_v` raises
`ZeroDivisionError` when `max_v = 0`. -/
inductive EvalError where
  | emptyVoltageSet
  | divisionByZero
deriving DecidableEq

/-- The four health classifications of `get_health_indicator`. -/
inductive Health where
  | good
  | caution
  | fair
  | poor
deriving DecidableEq

/-- The four charge states of `charging_state_map` (keys 0x40, 0x80, 0x20,
0x00 in the source). `idle` is the 0x00 map entry. -/
inductive ChargeState where
  | fastCharging
  | charging
  | discharging
  | idle
deriving DecidableEq

/-- Pack telemetry decoded from the 12-byte register block at 0x20
(`make_battery_panel` / `make_battery_info`, fields in source order). -/
structure PackTelemetry where
  voltage : ℕ
  current : ℤ
  percent : ℕ
  capacity : ℕ
  timeToEmpty : ℕ
  timeToFull : ℕ
deriving DecidableEq

/-- Input-power telemetry decoded from the 6-byte register block at 0x10
(`make_power_panel` / `make_power_info`). -/
structure InputPower where
  vbusVoltage : ℕ
  vbusCurrent : ℕ
  vbusPowerRaw : ℕ
deriving DecidableEq

namespace M1

/-! Transcription of `src/ups_monitor.py`. -/

/-- `LOW_VOL = 2500` (line 16). -/
def LOW_VOL : ℕ := 2500

/-- The byte-pair reconstruction `lo | hi << 8` used for every 16-bit
field (lines 117-124, 152-155, 161-163). -/
def read16 (lo hi : ℕ) : ℕ := lo ||| (hi <<< 8)

/-- Reads the 16-bit field at offset `i` of a block; Python raises
`IndexError` when an index is out of range (lines 117 etc.). -/
def byte2 (data : List ℕ) (i : ℕ) : Except DecodeError ℕ :=
  match data.get? i, data.get? (i + 1) with
  | some lo, some hi => .ok (read16 lo hi)
  | _, _ => .error .truncatedBlock

/-- The pack-current sign fix (lines 119-120):
`if current > 0x7FFF: current -= 0xFFFF`. -/
def signCorrect (raw : ℕ) : ℤ :=
  if raw > 0x7FFF then (raw : ℤ) - 0xFFFF else (raw : ℤ)

/-- The decode portion of `make_battery_panel` (lines 116-124). -/
def decodePack (data : List ℕ) : Except DecodeError PackTelemetry :=
  match byte2 data 0, byte2 data 2, byte2 data 4,
        byte2 data 6, byte2 data 8, byte2 data 10 with
  | .ok voltage, .ok rawCur, .ok percent, .ok capacity, .ok tte, .ok ttf =>
      .ok ⟨voltage, signCorrect rawCur, percent, capacity, tte, ttf⟩
  | _, _, _, _, _, _ => .error .truncatedBlock

/-- The decode portion of `make_cell_voltages_panel` (lines 150-156). -/
def decodeCells (data : List ℕ) : Except DecodeError (List ℕ) :=
  match byte2 data 0, byte2 data 2, byte2 data 4, byte2 data 6 with
  | .ok c1, .ok c2, .ok c3, .ok c4 => .ok [c1, c2, c3, c4]
  | _, _, _, _ => .error .truncatedBlock

/-- The decode portion of `make_power_panel` (lines 160-163). -/
def decodePower (data : List ℕ) : Except DecodeError InputPower :=
  match byte2 data 0, byte2 data 2, byte2 data 4 with
  | .ok vv, .ok vc, .ok vp => .ok ⟨vv, vc, vp⟩
  | _, _, _ => .error .truncatedBlock

/-- `imbalance = (max_v - min_v) / max_v * 100` (line 102) on the non-empty
list `v :: tl`, as the exact rational. -/
def imbalance (v : ℕ) (tl : List ℕ) : ℚ :=
  (((tl.foldl Nat.max v : ℕ) : ℚ) - ((tl.foldl Nat.min v : ℕ) : ℚ)) / ((tl.foldl Nat.max v : ℕ) : ℚ) * 100

/-- `get_health_indicator` (lines 99-111), classification only (the source
wraps each branch's result in a rich-text string). `max([])` raises
`ValueError`; the division raises `ZeroDivisionError` when `max_v = 0`. -/
def get_health_indicator (voltages : List ℕ) (current percentage : ℤ) :
    Except EvalError Health :=
  match voltages with
  | [] => .error .emptyVoltageSet
  | v :: tl =>
    if tl.foldl Nat.max v = 0 then .error .divisionByZero
    else if imbalance v tl > 10 then .ok .poor
    else if current < -500 then .ok .fair
    else if percentage < 20 then .ok .caution
    else .ok .good

/-- `get_charging_state` (lines 197-203): bit 0x40 first, then bit 0x80,
else the 0x20 (discharging) map entry. -/
def get_charging_state (b : ℕ) : ChargeState :=
  if b &&& 0x40 ≠ 0 then .fastCharging
  else if b &&& 0x80 ≠ 0 then .charging
  else .discharging

/-- `check_shutdown_condition` (lines 171-172). -/
def check_shutdown_condition (voltages : List ℕ) (current : ℤ) : Bool :=
  (voltages.any fun v => decide (v < LOW_VOL)) && decide (current < 50)

/-- `round(x, 4)` as used on lines 132-133, over `ℚ` (nearest multiple of
`10⁻⁴`; Python ties go to even on the underlying double). -/
def roundTo4 (x : ℚ) : ℚ := ((round (x * 10000) : ℤ) : ℚ) / 10000

/-- `output_power = round(current_abs / 1000 * battery_voltage / 1000, 4)`
(lines 127, 132). -/
def output_power (current : ℤ) (voltage : ℕ) : ℚ :=
  roundTo4 (|(current : ℚ)| / 1000 * (voltage : ℚ) / 1000)

/-- `battery_power = round(remaining_capacity / 1000 * battery_voltage / 1000, 4)`
(line 133). -/
def battery_power (capacity voltage : ℕ) : ℚ :=
  roundTo4 ((capacity : ℚ) / 1000 * (voltage : ℚ) / 1000)

/-- `vbus_power = (data[4] | data[5] << 8) / 1000` (line 163), on the
decoded raw field. -/
def vbus_power (raw : ℕ) : ℚ := (raw : ℚ) / 1000

end M1

deriving instance DecidableEq for Except

namespace M1

/-- The non-presentational results of `make_battery_panel`. -/
structure BatteryCore where
  telemetry : PackTelemetry
  health : Except EvalError Health
  outputPower : ℚ
  batteryPower : ℚ
deriving DecidableEq

/-- `make_battery_panel` (lines 116-148) without the rich-text rendering:
decode, the two derived powers, and the health call of line 145, which
passes the singleton list `[battery_voltage]`, the signed current and the
percentage. -/
def make_battery_panel_core (data : List ℕ) : Except DecodeError BatteryCore :=
  match decodePack data with
  | .error e => .error e
  | .ok s =>
      .ok ⟨s, get_health_indicator [s.voltage] s.current (s.percent : ℤ),
           output_power s.current s.voltage,
           battery_power s.capacity s.voltage⟩

/-- One iteration of the debounce logic in `main` (lines 234-244) of
`ups_monitor.py`. The function assigns `low_count` without a `global`
declaration, so `low_count` is a local that is unbound until the first
`low_count = 0` of a condition-false cycle; `low_count += 1` on an unbound
local raises `UnboundLocalError`, which the cycle's `except` swallows, so
the increment is lost and no warning is shown. `none` models the unbound
local; the returned `Bool` is whether the warning panel is shown. -/
def observeStep (st : Option ℕ) (cond : Bool) : Option ℕ × Bool :=
  if cond then
    match st with
    | none => (none, false)
    | some k => (some (k + 1), decide (3 ≤ k + 1))
  else (some 0, false)

/-- The per-cycle warning signals over a list of shutdown-condition values,
threading the `low_count` state of `observeStep`. -/
def observeTrace (st : Option ℕ) : List Bool → List Bool
  | [] => []
  | c :: cs => (observeStep st c).2 :: observeTrace (observeStep st c).1 cs

end M1

namespace M2

/-! Transcription of `src/ups_monitor2.py` (the scrolling-log variant). -/

/-- `LOW_VOL = 2500` (line 12). -/
def LOW_VOL : ℕ := 2500

/-- The byte-pair reconstruction `lo | hi << 8` (lines 88-95, 119-124,
130-132). -/
def read16 (lo hi : ℕ) : ℕ := lo ||| (hi <<< 8)

/-- 16-bit field at offset `i`; `IndexError` on short blocks. -/
def byte2 (data : List ℕ) (i : ℕ) : Except DecodeError ℕ :=
  match data.get? i, data.get? (i + 1) with
  | some lo, some hi => .ok (read16 lo hi)
  | _, _ => .error .truncatedBlock

/-- The pack-current sign fix (lines 90-91). -/
def signCorrect (raw : ℕ) : ℤ :=
  if raw > 0x7FFF then (raw : ℤ) - 0xFFFF else (raw : ℤ)

/-- The decode portion of `make_battery_info` (lines 87-95). -/
def decodePack (data : List ℕ) : Except DecodeError PackTelemetry :=
  match byte2 data 0, byte2 data 2, byte2 data 4,
        byte2 data 6, byte2 data 8, byte2 data 10 with
  | .ok voltage, .ok rawCur, .ok percent, .ok capacity, .ok tte, .ok ttf =>
      .ok ⟨voltage, signCorrect rawCur, percent, capacity, tte, ttf⟩
  | _, _, _, _, _, _ => .error .truncatedBlock

/-- The decode portion of `make_cell_info` (lines 118-124). -/
def decodeCells (data : List ℕ) : Except DecodeError (List ℕ) :=
  match byte2 data 0, byte2 data 2, byte2 data 4, byte2 data 6 with
  | .ok c1, .ok c2, .ok c3, .ok c4 => .ok [c1, c2, c3, c4]
  | _, _, _, _ => .error .truncatedBlock

/-- The decode portion of `make_power_info` (lines 129-132). -/
def decodePower (data : List ℕ) : Except DecodeError InputPower :=
  match byte2 data 0, byte2 data 2, byte2 data 4 with
  | .ok vv, .ok vc, .ok vp => .ok ⟨vv, vc, vp⟩
  | _, _, _ => .error .truncatedBlock

/-- `imbalance = (max_v - min_v) / max_v * 100` (line 71). -/
def imbalance (v : ℕ) (tl : List ℕ) : ℚ :=
  (((tl.foldl Nat.max v : ℕ) : ℚ) - ((tl.foldl Nat.min v : ℕ) : ℚ)) / ((tl.foldl Nat.max v : ℕ) : ℚ) * 100

/-- `get_health_indicator` (lines 68-79); same classification as the
`ups_monitor.py` variant, different display strings. -/
def get_health_indicator (voltages : List ℕ) (current percentage : ℤ) :
    Except EvalError Health :=
  match voltages with
  | [] => .error .emptyVoltageSet
  | v :: tl =>
    if tl.foldl Nat.max v = 0 then .error .divisionByZero
    else if imbalance v tl > 10 then .ok .poor
    else if current < -500 then .ok .fair
    else if percentage < 20 then .ok .caution
    else .ok .good

/-- `get_charging_state` (lines 151-157). -/
def get_charging_state (b : ℕ) : ChargeState :=
  if b &&& 0x40 ≠ 0 then .fastCharging
  else if b &&& 0x80 ≠ 0 then .charging
  else .discharging

/-- `check_shutdown_condition` (lines 141-142). -/
def check_shutdown_condition (voltages : List ℕ) (current : ℤ) : Bool :=
  (voltages.any fun v => decide (v < LOW_VOL)) && decide (current < 50)

/-- One iteration of the debounce logic in `main` (lines 185-191) of
`ups_monitor2.py`, which declares `global low_count`, so the module-level
counter (initially 0) is incremented on a qualifying cycle and reset to 0
otherwise; the warning is shown while `low_count >= 3`. -/
def observeStep (count : ℕ) (cond : Bool) : ℕ × Bool :=
  if cond then (count + 1, decide (3 ≤ count + 1)) else (0, false)

/-- The per-cycle warning signals over a list of shutdown-condition values. -/
def observeTrace (count : ℕ) : List Bool → List Bool
  | [] => []
  | c :: cs => (observeStep count c).2 :: observeTrace (observeStep count c).1 cs

end M2

/-! ## Shared helper lemmas -/

/-- The byte-pair reconstruction equals the little-endian unsigned value
`lo + 256 * hi` whenever `lo` is a byte (the high part occupies disjoint
bits, so bitwise or is addition). -/
lemma read16_eq_add (lo hi : ℕ) (h : lo < 256) : M1.read16 lo hi = lo + 256 * hi := by
  have h2 : lo < 2 ^ 8 := h
  unfold M1.read16
  rw [Nat.shiftLeft_eq, Nat.lor_comm, Nat.mul_comm, ← Nat.mul_add_lt_is_or h2]
  ring

/-- `roundTo4` is the identity on rationals that are integer multiples of
`10⁻⁴`. -/
lemma roundTo4_fix (x : ℚ) (k : ℤ) (h : x * 10000 = (k : ℚ)) : M1.roundTo4 x = x := by
  unfold M1.roundTo4
  rw [h, round_intCast, div_eq_iff (by norm_num : (10000 : ℚ) ≠ 0)]
  linarith

/-- On a one-element voltage list the computed imbalance is zero. -/
lemma imbalance_singleton (v : ℕ) : M1.imbalance v [] = 0 := by
  unfold M1.imbalance
  simp

/-- The health evaluator can never report `poor` on a one-element voltage
list: max and min coincide, so the imbalance is 0. -/
lemma health_singleton_ne_poor (v : ℕ) (c p : ℤ) :
    M1.get_health_indicator [v] c p ≠ .ok .poor := by
  simp only [M1.get_health_indicator, List.foldl_nil]
  by_cases hv : v = 0
  · rw [if_pos hv]
    simp
  · rw [if_neg hv, if_neg (by rw [imbalance_singleton]; norm_num)]
    split_ifs <;> simp

/-! ## Claims -/

/-- C1: pack current decoding is sign-corrected with the non-standard
constant: for every raw 16-bit value ≤ 32767 the result equals `raw`, for
every raw value > 32767 it equals `raw - 65535` (exactly 65535, not
65536); and the current field decoded from pack-block bytes 2-3 is exactly
this sign correction of the little-endian raw value. -/
theorem pack_current_sign_correction (lo hi : ℕ) (hlo : lo < 256) (hhi : hi < 256) :
    (∀ raw : ℕ, raw ≤ 32767 → M1.signCorrect raw = (raw : ℤ)) ∧
    (∀ raw : ℕ, 32767 < raw → M1.signCorrect raw = (raw : ℤ) - 65535) ∧
    (M1.decodePack [0, 0, lo, hi, 0, 0, 0, 0, 0, 0, 0, 0]).map PackTelemetry.current
      = .ok (M1.signCorrect (lo + 256 * hi)) ∧
    lo + 256 * hi < 65536 := by
  refine ⟨?_, ?_, ?_, by omega⟩
  · intro raw h
    unfold M1.signCorrect
    rw [if_neg (by omega)]
  · intro raw h
    unfold M1.signCorrect
    rw [if_pos (by omega)]
  · have h12 : M1.decodePack [0, 0, lo, hi, 0, 0, 0, 0, 0, 0, 0, 0] =
        .ok ⟨M1.read16 0 0, M1.signCorrect (M1.read16 lo hi), M1.read16 0 0,
             M1.read16 0 0, M1.read16 0 0, M1.read16 0 0⟩ := rfl
    rw [h12, read16_eq_add lo hi hlo]
    rfl

/-- Witness for C1 at the boundary raw value 0xFFFF = 65535. -/
theorem pack_current_sign_correction_witness :
    M1.signCorrect 65535 = (65535 : ℤ) - 65535 :=
  (pack_current_sign_correction 255 255 (by norm_num) (by norm_num)).2.1 65535 (by norm_num)

/-- C2: the claim describes the intended debounce (signal false on the 1st
and 2nd consecutive qualifying cycle, true from the 3rd on, counter reset
by any non-qualifying cycle). `ups_monitor2.py` implements it
(`M2.observeTrace`), but `ups_monitor.py`'s `main` lacks the
`global low_count` declaration, so on a run of qualifying cycles that
starts before any non-qualifying cycle the increment raises
`UnboundLocalError` every time and the warning is never signalled
(`M1.observeTrace` from the unbound state `none`). -/
theorem shutdown_debounce_globals_bug :
    M1.observeTrace none [true, true, true, true] = [false, false, false, false] ∧
    M2.observeTrace 0 [true, true, true, true] = [false, false, true, true] ∧
    M2.observeTrace 0 [true, true, false, true, true, true] =
      [false, false, false, false, false, true] := by decide

/-- C3: charge classification follows the fixed priority 0x40, then 0x80,
else discharging; every byte yields exactly one state, byte 0x00 yields
discharging, and the idle state is never produced. -/
theorem charging_state_priority (b : ℕ) :
    (b &&& 0x40 ≠ 0 → M1.get_charging_state b = .fastCharging) ∧
    (b &&& 0x40 = 0 → b &&& 0x80 ≠ 0 → M1.get_charging_state b = .charging) ∧
    (b &&& 0x40 = 0 → b &&& 0x80 = 0 → M1.get_charging_state b = .discharging) ∧
    M1.get_charging_state b ≠ .idle ∧
    M1.get_charging_state 0x00 = .discharging := by
  refine ⟨?_, ?_, ?_, ?_, by decide⟩
  · intro h
    simp [M1.get_charging_state, h]
  · intro h1 h2
    simp [M1.get_charging_state, h1, h2]
  · intro h1 h2
    simp [M1.get_charging_state, h1, h2]
  · unfold M1.get_charging_state
    split_ifs <;> simp

/-- Witness for C3: status byte 0x40 classifies as fast charging. -/
theorem charging_state_priority_witness :
    M1.get_charging_state 0x40 = .fastCharging :=
  (charging_state_priority 0x40).1 (by decide)

/-- C5: every 16-bit field of every register group is decoded
little-endian unsigned as `lo | (hi << 8) = lo + 256 * hi` (< 65536 for
byte inputs), at the fixed offsets: input power 0/2/4, pack
0/2/4/6/8/10 (current sign-corrected), cells 0/2/4/6. -/
theorem decode_fields_little_endian (lo hi : ℕ) (hlo : lo < 256) (hhi : hi < 256) :
    M1.read16 lo hi = lo + 256 * hi ∧ M1.read16 lo hi < 65536 ∧
    (∀ b0 b1 b2 b3 b4 b5 b6 b7 b8 b9 b10 b11 : ℕ,
      M1.decodePower [b0, b1, b2, b3, b4, b5] =
        .ok ⟨M1.read16 b0 b1, M1.read16 b2 b3, M1.read16 b4 b5⟩ ∧
      M1.decodePack [b0, b1, b2, b3, b4, b5, b6, b7, b8, b9, b10, b11] =
        .ok ⟨M1.read16 b0 b1, M1.signCorrect (M1.read16 b2 b3), M1.read16 b4 b5,
             M1.read16 b6 b7, M1.read16 b8 b9, M1.read16 b10 b11⟩ ∧
      M1.decodeCells [b0, b1, b2, b3, b4, b5, b6, b7] =
        .ok [M1.read16 b0 b1, M1.read16 b2 b3, M1.read16 b4 b5, M1.read16 b6 b7]) := by
  refine ⟨read16_eq_add lo hi hlo, ?_, fun b0 b1 b2 b3 b4 b5 b6 b7 b8 b9 b10 b11 => ⟨rfl, rfl, rfl⟩⟩
  rw [read16_eq_add lo hi hlo]
  omega

/-- Witness for C5 at the byte pair (0x34, 0x12). -/
theorem decode_fields_little_endian_witness :
    M1.read16 52 18 = 52 + 256 * 18 :=
  (decode_fields_little_endian 52 18 (by norm_num) (by norm_num)).1

/-- C4 counterexample: on the non-empty all-zero voltage list the claimed
priority classification (which would give `good` here) does not happen:
the evaluator fails with a division by `max_voltage = 0` instead. -/
theorem health_priority_zero_max_counterexample :
    M1.get_health_indicator [0, 0] 0 50 = .error .divisionByZero := by decide

/-- C4 (amended: restricted to non-empty voltage lists whose maximum is
nonzero, so that the division executes): the classification follows the
fixed first-match priority — imbalance > 10 gives poor, else
current < −500 gives fair, else percentage < 20 gives caution, else good;
equal nonzero voltages with current −600 and percentage 50 give fair, and
voltages [4200, 3700] give poor regardless of current and percentage. -/
theorem health_priority_order (v : ℕ) (tl : List ℕ) (c p : ℤ)
    (hmax : tl.foldl Nat.max v ≠ 0) :
    M1.get_health_indicator (v :: tl) c p =
      .ok (if M1.imbalance v tl > 10 then .poor
           else if c < -500 then .fair
           else if p < 20 then .caution
           else .good) ∧
    (∀ w : ℕ, w ≠ 0 → M1.get_health_indicator [w, w] (-600) 50 = .ok .fair) ∧
    (∀ c2 p2 : ℤ, M1.get_health_indicator [4200, 3700] c2 p2 = .ok .poor) := by
  refine ⟨?_, ?_, ?_⟩
  · simp only [M1.get_health_indicator]
    rw [if_neg hmax]
    split_ifs <;> rfl
  · intro w hw
    have him : M1.imbalance w [w] = 0 := by
      unfold M1.imbalance
      simp
    simp only [M1.get_health_indicator, List.foldl_cons, List.foldl_nil, Nat.max_self]
    rw [if_neg hw, if_neg (by rw [him]; norm_num), if_pos (by norm_num)]
  · intro c2 p2
    have him : M1.imbalance 4200 [3700] > 10 := by
      unfold M1.imbalance
      norm_num
    simp only [M1.get_health_indicator, List.foldl_cons, List.foldl_nil]
    rw [if_neg (by norm_num), if_pos him]

/-- Witness for C4: the [4200, 3700] imbalance wins over any current and
percentage. -/
theorem health_priority_order_witness :
    M1.get_health_indicator [4200, 3700] 0 90 = .ok .poor :=
  (health_priority_order 4200 [3700] 0 90 (by decide)).2.2 0 90

/-- C6 counterexample: the evaluator does divide by `max_voltage = 0` on
some input — on the non-empty list [0] the Python code raises
`ZeroDivisionError` (the claim says a division by zero never executes). -/
theorem health_divzero_counterexample :
    M1.get_health_indicator [0] 0 0 = .error .divisionByZero := by decide

/-- C6 (amended): on the empty voltage set the evaluator fails with
`emptyVoltageSet` (before any division); on a non-empty list the division
by `max_voltage = 0` executes exactly when the maximum voltage is 0, so
for every input with a nonzero maximum no division by zero occurs. -/
theorem health_empty_and_division (c p : ℤ) :
    M1.get_health_indicator [] c p = .error .emptyVoltageSet ∧
    (∀ (v : ℕ) (tl : List ℕ),
      M1.get_health_indicator (v :: tl) c p = .error .divisionByZero ↔
        tl.foldl Nat.max v = 0) := by
  refine ⟨rfl, fun v tl => ?_⟩
  constructor
  · intro h
    by_contra hne
    simp only [M1.get_health_indicator] at h
    rw [if_neg hne] at h
    split_ifs at h
  · intro h
    simp only [M1.get_health_indicator]
    rw [if_pos h]

/-- Witness for C6: the empty list fails with `emptyVoltageSet`. -/
theorem health_empty_and_division_witness :
    M1.get_health_indicator [] 0 0 = .error .emptyVoltageSet :=
  (health_empty_and_division 0 0).1

/-- C7: decoding a block shorter than the group's required length (pack
12, cells 8, input power 6) fails with `truncatedBlock`; field access is
modelled by `List.get?`, so no byte beyond the available ones is read. -/
theorem decode_truncated_block (data : List ℕ) :
    (data.length < 12 → M1.decodePack data = .error .truncatedBlock) ∧
    (data.length < 8 → M1.decodeCells data = .error .truncatedBlock) ∧
    (data.length < 6 → M1.decodePower data = .error .truncatedBlock) := by
  refine ⟨?_, ?_, ?_⟩ <;> intro h
  · rcases data with _ | ⟨b0, _ | ⟨b1, _ | ⟨b2, _ | ⟨b3, _ | ⟨b4, _ | ⟨b5, _ | ⟨b6, _ | ⟨b7,
      _ | ⟨b8, _ | ⟨b9, _ | ⟨b10, _ | ⟨b11, rest⟩⟩⟩⟩⟩⟩⟩⟩⟩⟩⟩⟩ <;>
      first
        | rfl
        | (simp only [List.length_cons] at h; omega)
  · rcases data with _ | ⟨b0, _ | ⟨b1, _ | ⟨b2, _ | ⟨b3, _ | ⟨b4, _ | ⟨b5, _ | ⟨b6, _ | ⟨b7,
      rest⟩⟩⟩⟩⟩⟩⟩⟩ <;>
      first
        | rfl
        | (simp only [List.length_cons] at h; omega)
  · rcases data with _ | ⟨b0, _ | ⟨b1, _ | ⟨b2, _ | ⟨b3, _ | ⟨b4, _ | ⟨b5, rest⟩⟩⟩⟩⟩⟩ <;>
      first
        | rfl
        | (simp only [List.length_cons] at h; omega)

/-- Witness for C7 at blocks exactly 2 bytes shorter than required. -/
theorem decode_truncated_block_witness :
    M1.decodePack [0, 0, 0, 0, 0, 0, 0, 0, 0, 0] = .error .truncatedBlock ∧
    M1.decodeCells [0, 0, 0, 0, 0, 0] = .error .truncatedBlock ∧
    M1.decodePower [0, 0, 0, 0] = .error .truncatedBlock :=
  ⟨(decode_truncated_block [0, 0, 0, 0, 0, 0, 0, 0, 0, 0]).1 (by norm_num),
   (decode_truncated_block [0, 0, 0, 0, 0, 0]).2.1 (by norm_num),
   (decode_truncated_block [0, 0, 0, 0]).2.2 (by norm_num)⟩

/-- C8 counterexample: battery instantaneous power is not exactly
`|current|/1000 × voltage/1000` for every decoded pack: at current 1 mA and
voltage 1 mV the code's `round(·, 4)` collapses the product 0.000001 W
to 0.0. -/
theorem derived_power_rounding_counterexample :
    M1.output_power 1 1 ≠ |((1 : ℤ) : ℚ)| / 1000 * ((1 : ℕ) : ℚ) / 1000 := by
  norm_num [M1.output_power, M1.roundTo4, round_eq]

/-- C8 (amended): battery power and stored energy equal the claimed
formulas rounded to 4 decimal places, hence exactly
`|current|/1000 × voltage/1000` resp. `capacity/1000 × voltage/1000`
whenever that value needs at most 4 decimals (in particular voltage
16000 mV with current 500 mA gives 8.0 W and capacity 3000 mAh gives
48.0 Wh), and input power is the decoded `vbus_power_raw` divided by 1000
with no further scaling (raw 1000 gives 1.0 W). -/
theorem derived_power_formulas (c : ℤ) (v cap raw : ℕ)
    (hc : (100 : ℤ) ∣ c * v) (hcap : 100 ∣ cap * v) :
    M1.output_power c v = |(c : ℚ)| / 1000 * (v : ℚ) / 1000 ∧
    M1.battery_power cap v = (cap : ℚ) / 1000 * (v : ℚ) / 1000 ∧
    M1.vbus_power raw = (raw : ℚ) / 1000 ∧
    M1.output_power 500 16000 = 8 ∧
    M1.battery_power 3000 16000 = 48 ∧
    M1.vbus_power 1000 = 1 := by
  obtain ⟨k, hk⟩ := hc
  obtain ⟨m, hm⟩ := hcap
  refine ⟨?_, ?_, rfl, ?_, ?_, ?_⟩
  · unfold M1.output_power
    apply roundTo4_fix _ |k|
    have h1 : (c : ℚ) * (v : ℚ) = ((100 * k : ℤ) : ℚ) := by
      rw [← hk]
      push_cast
      ring
    calc |(c : ℚ)| / 1000 * (v : ℚ) / 1000 * 10000
        = |(c : ℚ)| * |(v : ℚ)| / 100 := by
          rw [abs_of_nonneg (by positivity : (0 : ℚ) ≤ (v : ℚ))]
          ring
      _ = |(c : ℚ) * (v : ℚ)| / 100 := by rw [abs_mul]
      _ = |((100 * k : ℤ) : ℚ)| / 100 := by rw [h1]
      _ = ((|k| : ℤ) : ℚ) := by
          push_cast
          rw [abs_mul]
          norm_num
  · unfold M1.battery_power
    apply roundTo4_fix _ (m : ℤ)
    have h1 : (cap : ℚ) * (v : ℚ) = ((100 * m : ℕ) : ℚ) := by
      rw [← hm]
      push_cast
      ring
    calc (cap : ℚ) / 1000 * (v : ℚ) / 1000 * 10000
        = (cap : ℚ) * (v : ℚ) / 100 := by ring
      _ = ((100 * m : ℕ) : ℚ) / 100 := by rw [h1]
      _ = ((m : ℤ) : ℚ) := by
          push_cast
          ring
  · norm_num [M1.output_power, M1.roundTo4]
  · norm_num [M1.battery_power, M1.roundTo4]
  · norm_num [M1.vbus_power]

/-- Witness for C8 at the end-to-end example values. -/
theorem derived_power_formulas_witness :
    M1.output_power 500 16000 = |((500 : ℤ) : ℚ)| / 1000 * ((16000 : ℕ) : ℚ) / 1000 :=
  (derived_power_formulas 500 16000 3000 1000 (by norm_num) (by norm_num)).1

/-- C9: the two source variants compute identical core results on every
input: decode arithmetic (all three register groups, including the current
sign fix), the health classification selected, the charge state selected,
and the shutdown condition. -/
theorem variants_equivalent :
    (∀ (vs : List ℕ) (c p : ℤ),
      M1.get_health_indicator vs c p = M2.get_health_indicator vs c p) ∧
    (∀ b : ℕ, M1.get_charging_state b = M2.get_charging_state b) ∧
    (∀ (vs : List ℕ) (c : ℤ),
      M1.check_shutdown_condition vs c = M2.check_shutdown_condition vs c) ∧
    (∀ data : List ℕ,
      M1.decodePack data = M2.decodePack data ∧
      M1.decodeCells data = M2.decodeCells data ∧
      M1.decodePower data = M2.decodePower data) :=
  ⟨fun _ _ _ => rfl, fun _ => rfl, fun _ _ => rfl, fun _ => ⟨rfl, rfl, rfl⟩⟩

/-- C10: `make_battery_panel` invokes the health evaluator with the
single-element list `[battery_voltage]`; a singleton's imbalance is 0, so
the poor (voltage imbalance) classification is never produced by the
running program. -/
theorem singleton_health_never_poor (data : List ℕ) (core : M1.BatteryCore)
    (h : M1.make_battery_panel_core data = .ok core) :
    core.health = M1.get_health_indicator [core.telemetry.voltage]
        core.telemetry.current (core.telemetry.percent : ℤ) ∧
    core.health ≠ .ok .poor ∧
    (∀ w : ℕ, M1.imbalance w [] = 0) := by
  unfold M1.make_battery_panel_core at h
  cases hd : M1.decodePack data with
  | error e =>
      rw [hd] at h
      simp at h
  | ok s =>
      rw [hd] at h
      simp only [Except.ok.injEq] at h
      subst h
      exact ⟨rfl, health_singleton_ne_poor s.voltage s.current (s.percent : ℤ),
             fun w => imbalance_singleton w⟩

/-- Witness for C10 at a concrete 12-byte pack block (voltage 10240 mV,
current 0, percentage 50). -/
theorem singleton_health_never_poor_witness :
    (Except.ok Health.good : Except EvalError Health) ≠ .ok .poor :=
  (singleton_health_never_poor [0, 40, 0, 0, 50, 0, 0, 0, 0, 0, 0, 0]
    ⟨⟨10240, 0, 50, 0, 0, 0⟩, .ok .good, 0, 0⟩
    (by norm_num [M1.make_battery_panel_core, M1.decodePack, M1.byte2, M1.read16,
      M1.signCorrect, Nat.shiftLeft_eq, M1.get_health_indicator, M1.imbalance,
      M1.output_power, M1.battery_power, M1.roundTo4])).2.1
